import Mathlib

/-!
The retro-go network manager, `components/retro-go/rg_network.c`.

A shallow embedding of the Wi-Fi connection manager and of its one-shot time
synchronisation client, followed by theorems about them.

Conventions of the embedding.

* The translation unit is taken as compiled with `RG_ENABLE_NETWORKING` defined: this is
  the only build in which `network_event_handler` exists and in which `rg_network_init`
  can ever set `initialized`.
* The three file-level variables `netstate`, `config`, `initialized` are the first three
  fields of `World`.  `World` also carries the system clock and the list of calls made to
  the outside (driver commands, system events, socket operations, clock writes), oldest
  first.  Logging calls (`RG_LOGx`) have no effect on any of this and are left out.
* What the outside answers to one call of a function (driver return codes, the resolved
  host, the received datagram, ...) is read from an `Env` record.
* Character arrays are lists of bytes (naturals below 256).  A `const char *` argument is
  the bytes found at the pointer, or `none` for a null pointer.
* The target is the ESP32 (ILP32): `int`, `long` and `unsigned long` are 32 bits wide,
  `int64_t` is 64 bits wide.  The width of `time_t` depends on the SDK release and is a
  parameter.  Conversions to a narrower or differently signed type are written out with
  `wrap_signed` and `wrap_unsigned`.
-/

namespace RgNetwork

/-! ## Machine integers -/

/-- Value of the integer `x` once stored in a signed two's complement field of `bits` bits. -/
def wrap_signed (bits : Nat) (x : Int) : Int :=
  (x + 2 ^ (bits - 1)) % 2 ^ bits - 2 ^ (bits - 1)

/-- Value of the integer `x` once stored in an unsigned field of `bits` bits. -/
def wrap_unsigned (bits : Nat) (x : Int) : Int :=
  x % 2 ^ bits

/-- Arithmetic on `int64_t` operands: the exact result stored back into 64 bits. -/
def i64_mul (a b : Int) : Int := wrap_signed 64 (a * b)

/-- Sum of two `int64_t` operands. -/
def i64_add (a b : Int) : Int := wrap_signed 64 (a + b)

/-- Difference of two `int64_t` operands. -/
def i64_sub (a b : Int) : Int := wrap_signed 64 (a - b)

/-- C division of `int64_t` operands: the quotient is truncated toward zero. -/
def i64_div (a b : Int) : Int := wrap_signed 64 (Int.tdiv a b)

/-- Width of `time_t` on the target: 32 bits (`long`) or 64 bits. -/
inductive time_t_width where
  | bits32
  | bits64
deriving DecidableEq, Repr

/-- Number of bits of `time_t`. -/
def time_t_width.bits : time_t_width → Nat
  | .bits32 => 32
  | .bits64 => 64

/-- Conversion of an integer value to `time_t`. -/
def to_time_t (tw : time_t_width) (x : Int) : Int := wrap_signed tw.bits x

/-- The C `struct timeval`: `tv_sec` is a `time_t`, `tv_usec` a `long`. -/
structure timeval where
  tv_sec : Int
  tv_usec : Int
deriving DecidableEq, Repr

/-! ## Character arrays and the C library -/

/-- The C string found at a pointer: the bytes before the first NUL. -/
def c_str (mem : List Nat) : List Nat :=
  mem.takeWhile (fun b => b ≠ 0)

/-- `memcpy(dst, src, n)`: the first `n` bytes of `dst` are replaced by those of `src`. -/
def memcpy (dst src : List Nat) (n : Nat) : List Nat :=
  src.take n ++ dst.drop n

/-- `snprintf(buf, size, fmt, ...)`, `text` being the complete formatted output: at most
`size - 1` bytes of `text` and then a NUL are stored at the start of `buf`; the bytes of
`buf` after that NUL are not touched. -/
def snprintf (buf : List Nat) (size : Nat) (text : List Nat) : List Nat :=
  if size = 0 then buf
  else
    let out := text.take (size - 1) ++ [0]
    out ++ buf.drop out.length

/-- Output of the conversion `%d` for a non-negative argument: its decimal digits. -/
def fmt_d (n : Nat) : List Nat :=
  (Nat.toDigits 10 n).map Char.toNat

/-- An `ip4_addr_t`: the 32-bit field `addr` holds the address in network byte order, so on
the little-endian target the first octet of the address is the low byte of `addr`. -/
structure ip4_addr_t where
  addr : Nat
deriving DecidableEq, Repr

/-- First octet, `ip4_addr1_16`. -/
def ip4_addr1_16 (ip : ip4_addr_t) : Nat := ip.addr % 256

/-- Second octet, `ip4_addr2_16`. -/
def ip4_addr2_16 (ip : ip4_addr_t) : Nat := ip.addr / 256 % 256

/-- Third octet, `ip4_addr3_16`. -/
def ip4_addr3_16 (ip : ip4_addr_t) : Nat := ip.addr / 65536 % 256

/-- Fourth octet, `ip4_addr4_16`. -/
def ip4_addr4_16 (ip : ip4_addr_t) : Nat := ip.addr / 16777216 % 256

/-- Output of the format `IPSTR` (`"%d.%d.%d.%d"`) applied to `IP2STR(ip)`. -/
def IPSTR_IP2STR (ip : ip4_addr_t) : List Nat :=
  fmt_d (ip4_addr1_16 ip) ++ [46] ++ fmt_d (ip4_addr2_16 ip) ++ [46] ++
    fmt_d (ip4_addr3_16 ip) ++ [46] ++ fmt_d (ip4_addr4_16 ip)

/-- Bytes of a `uint32_t` as stored in memory on the little-endian target. -/
def u32_store (x : Nat) : List Nat :=
  [x % 256, x / 256 % 256, x / 65536 % 256, x / 16777216 % 256]

/-- The `uint32_t` read from element `i` of a word array stored in `mem`. -/
def u32_load (mem : List Nat) (i : Nat) : Nat :=
  mem.getD (4 * i) 0 + 256 * mem.getD (4 * i + 1) 0 + 65536 * mem.getD (4 * i + 2) 0 +
    16777216 * mem.getD (4 * i + 3) 0

/-- `ntohl` on the little-endian target: the four bytes of the word are reversed. -/
def ntohl (x : Nat) : Nat :=
  (x % 256) * 16777216 + (x / 256 % 256) * 65536 + (x / 65536 % 256) * 256 +
    x / 16777216 % 256

/-! ## Data model -/

/-- An `esp_err_t` return code. -/
abbrev esp_err_t := Int

/-- The success code `ESP_OK`. -/
def ESP_OK : esp_err_t := 0

/-- Modelled from the spec: the connection state constants `RG_WIFI_DISCONNECTED`,
`RG_WIFI_CONNECTING`, `RG_WIFI_CONNECTED` of `rg_network.h` (the header is not part of the
sources at hand); the spec gives the enumeration `Disconnected, Connecting, Connected` with
`Disconnected` as the initial, zero value. -/
inductive rg_wifi_state_t where
  | RG_WIFI_DISCONNECTED
  | RG_WIFI_CONNECTING
  | RG_WIFI_CONNECTED
deriving DecidableEq, Repr

/-- Modelled from the spec: the struct `rg_network_t` of `rg_network.h`, with the fields the
code accesses: `ssid` (32 bytes), `local_addr` (16 bytes), `channel`, `rssi`, `state`. -/
structure rg_network_t where
  ssid : List Nat
  local_addr : List Nat
  channel : Int
  rssi : Int
  state : rg_wifi_state_t
deriving DecidableEq, Repr

/-- Modelled from the spec: the struct `rg_wifi_config_t` of `rg_network.h`, with the fields
the code accesses: `ssid` (32 bytes), `password` (64 bytes), `channel`, `ap_mode`. -/
structure rg_wifi_config_t where
  ssid : List Nat
  password : List Nat
  channel : Int
  ap_mode : Bool
deriving DecidableEq, Repr

/-- Driver operating mode passed to `esp_wifi_set_mode`. -/
inductive wifi_mode_t where
  | WIFI_MODE_STA
  | WIFI_MODE_AP
deriving DecidableEq, Repr

/-- Driver interface passed to `esp_wifi_set_config`. -/
inductive wifi_interface_t where
  | WIFI_IF_STA
  | WIFI_IF_AP
deriving DecidableEq, Repr

/-- The union `wifi_config_t`, restricted to the members the code assigns; every other
member keeps the zero of the initialiser `{0}`.  The `channel` members are `uint8_t`. -/
inductive wifi_config_t where
  | ap (ssid password : List Nat) (channel : Int) (max_connection : Int)
  | sta (ssid password : List Nat) (channel : Int)
deriving DecidableEq, Repr

/-- The two system events this module raises through `rg_system_event`. -/
inductive rg_event_t where
  | RG_EVENT_NETWORK_CONNECTED
  | RG_EVENT_NETWORK_DISCONNECTED
deriving DecidableEq, Repr

/-- A call made to the outside world. -/
inductive Effect where
  | esp_wifi_set_mode (mode : wifi_mode_t)
  | esp_wifi_set_config (ifx : wifi_interface_t) (conf : wifi_config_t)
  | esp_wifi_start
  | esp_wifi_stop
  | esp_wifi_connect
  | rg_system_event (event : rg_event_t)
  | rg_system_save_time
  | socket
  | gethostbyname (host : String)
  | setsockopt_rcvtimeo (timeout : timeval)
  | connect (sin_addr : List Nat) (port : Nat)
  | send (bytes : List Nat)
  | recv (len : Nat)
  | settimeofday (tv : timeval)
deriving DecidableEq, Repr

/-- The record `wifi_ap_record_t`, restricted to the members read:
`primary` (`uint8_t`) and `rssi` (`int8_t`). -/
structure wifi_ap_record_t where
  primary : Nat
  rssi : Int
deriving DecidableEq, Repr

/-- The `struct hostent` returned by `gethostbyname`: `h_length` and the bytes at `h_addr`. -/
structure hostent where
  h_length : Nat
  h_addr : List Nat
deriving DecidableEq, Repr

/-- The payload `ip_event_got_ip_t` of `IP_EVENT_STA_GOT_IP`, restricted to `ip_info.ip`. -/
structure ip_event_got_ip_t where
  ip : ip4_addr_t
deriving DecidableEq, Repr

/-- What the outside answers during one call into the module. -/
structure Env where
  /-- Return code of `esp_wifi_set_mode`. -/
  esp_wifi_set_mode : esp_err_t
  /-- Return code of `esp_wifi_set_config`. -/
  esp_wifi_set_config : esp_err_t
  /-- Return code of `esp_wifi_start`. -/
  esp_wifi_start : esp_err_t
  /-- Return code of `tcpip_adapter_get_ip_info(TCPIP_ADAPTER_IF_AP, ..)` and the `ip`
  member it fills in. -/
  tcpip_adapter_get_ip_info : esp_err_t × ip4_addr_t
  /-- Return code of `esp_wifi_sta_get_ap_info` and the record it fills in. -/
  esp_wifi_sta_get_ap_info : esp_err_t × wifi_ap_record_t
  /-- Result of `gethostbyname`; `none` is the null pointer. -/
  gethostbyname : Option hostent
  /-- Datagram handed over by `recv`; `none` when `recv` fails (error or timeout, -1). -/
  recv : Option (List Nat)
deriving Repr

/-- The module's variables, the system clock, and the calls made so far. -/
structure World where
  netstate : rg_network_t
  config : rg_wifi_config_t
  initialized : Bool
  clock : timeval
  effects : List Effect
deriving DecidableEq, Repr

/-- Records one call to the outside. -/
def World.emit (w : World) (e : Effect) : World :=
  { w with effects := w.effects ++ [e] }

/-- The state at program start: the variables are zero-initialised, nothing was called. -/
def World.boot (clock : timeval) : World :=
  { netstate :=
      { ssid := List.replicate 32 0, local_addr := List.replicate 16 0, channel := 0,
        rssi := 0, state := .RG_WIFI_DISCONNECTED }
    config :=
      { ssid := List.replicate 32 0, password := List.replicate 64 0, channel := 0,
        ap_mode := false }
    initialized := false
    clock := clock
    effects := [] }

/-! ## Operations -/

/-- Modelled from the spec: the macro `RG_ASSERT(cond, message)` of `rg_system.h` (the header
is not part of the sources at hand).  The spec makes initialisation a precondition of
`start`; a failed assertion aborts the program, which is `none` here. -/
def RG_ASSERT (cond : Bool) : Option Unit :=
  if cond then some () else none

/-- `rg_network_wifi_stop`: asks the driver to stop and returns. -/
def rg_network_wifi_stop (w : World) : World :=
  w.emit .esp_wifi_stop

/-- `rg_network_wifi_set_config(ssid, password, channel, ap_mode)`. -/
def rg_network_wifi_set_config (ssid password : Option (List Nat)) (channel : Int)
    (ap_mode : Bool) (w : World) : Bool × World :=
  let config := { w.config with ssid := snprintf w.config.ssid 32 (c_str (ssid.getD [])) }
  let config := { config with password := snprintf config.password 64 (c_str (password.getD [])) }
  let config := { config with channel := channel }
  let config := { config with ap_mode := ap_mode }
  let netstate := { w.netstate with ssid := memcpy w.netstate.ssid config.ssid 32 }
  (true, { w with config := config, netstate := netstate })

/-- The statement `TRY(x)` followed by the rest of the function: `x` is called (recorded in
the world), and a return code other than `ESP_OK` jumps to `fail:`, where the function
returns `false`. -/
def TRY (call : Effect) (err : esp_err_t) (w : World) (rest : World → Bool × World) :
    Bool × World :=
  let w := w.emit call
  if err ≠ ESP_OK then (false, w) else rest w

/-- `rg_network_wifi_start()`; `none` when the assertion on `initialized` fails. -/
def rg_network_wifi_start (env : Env) (w : World) : Option (Bool × World) :=
  (RG_ASSERT w.initialized).bind fun _ =>
    if w.config.ssid.getD 0 0 = 0 then
      some (false, w)
    else if w.config.ap_mode then
      let wifi_config := wifi_config_t.ap
        (memcpy (List.replicate 32 0) w.config.ssid 32)
        (memcpy (List.replicate 64 0) w.config.password 64)
        (wrap_unsigned 8 w.config.channel) 1
      some <|
        TRY (.esp_wifi_set_mode .WIFI_MODE_AP) env.esp_wifi_set_mode w fun w =>
        TRY (.esp_wifi_set_config .WIFI_IF_AP wifi_config) env.esp_wifi_set_config w fun w =>
        TRY .esp_wifi_start env.esp_wifi_start w fun w =>
        (true, w)
    else
      let wifi_config := wifi_config_t.sta
        (memcpy (List.replicate 32 0) w.config.ssid 32)
        (memcpy (List.replicate 64 0) w.config.password 64)
        (wrap_unsigned 8 w.config.channel)
      some <|
        TRY (.esp_wifi_set_mode .WIFI_MODE_STA) env.esp_wifi_set_mode w fun w =>
        TRY (.esp_wifi_set_config .WIFI_IF_STA wifi_config) env.esp_wifi_set_config w fun w =>
        TRY .esp_wifi_start env.esp_wifi_start w fun w =>
        (true, w)

/-- `rg_network_get_info()`: a copy of `netstate`. -/
def rg_network_get_info (w : World) : rg_network_t :=
  w.netstate

/-- What a call of `rg_network_sync_time` leaves behind: the value returned, the content of
the cell `out_delta` points to (`none` for a null pointer), and the world. -/
structure sync_result where
  ret : Bool
  out_delta : Option Int
  world : World
deriving DecidableEq, Repr

/-- The request `ntp_packet` as it lies in memory: twelve words, the first `0x0000001B`. -/
def ntp_request : List Nat :=
  u32_store 0x0000001B ++ (List.replicate 11 (u32_store 0)).flatten

/-- The time derived from the packet buffer (the two assignments to `ntp_time`): seconds are
`ntohl(ntp_packet[10]) - 2208988800UL`, an `unsigned long` difference converted to `time_t`;
microseconds are `((int64_t)ntohl(ntp_packet[11]) * 1000000) >> 32`, stored in a `long`. -/
def ntp_time_of (tw : time_t_width) (ntp_packet : List Nat) : timeval :=
  { tv_sec :=
      to_time_t tw (wrap_unsigned 32 ((ntohl (u32_load ntp_packet 10) : Int) - 2208988800))
    tv_usec :=
      wrap_signed 32 ((i64_mul (ntohl (u32_load ntp_packet 11) : Int) 1000000) >>> (32 : Nat)) }

/-- A `struct timeval` in milliseconds, computed in `int64_t` as
`((int64_t)tv.tv_sec * 1000000 + tv.tv_usec) / 1000`. -/
def millis_i64 (tv : timeval) : Int :=
  i64_div (i64_add (i64_mul (wrap_signed 64 tv.tv_sec) 1000000) tv.tv_usec) 1000

/-- The value of `ntp_time_delta`: `now_millis - prev_millis`, an `int64_t`, stored in an
`int`. -/
def ntp_time_delta_of (cur_time ntp_time : timeval) : Int :=
  let prev_millis := millis_i64 cur_time
  let now_millis := millis_i64 ntp_time
  wrap_signed 32 (i64_sub now_millis prev_millis)

/-- `rg_network_sync_time(host, out_delta)`.  The argument `out_delta` is the content of the
pointed-to cell before the call, `none` for a null pointer. -/
def rg_network_sync_time (tw : time_t_width) (env : Env) (host : String)
    (out_delta : Option Int) (w : World) : sync_result :=
  let w := w.emit .socket
  let w := w.emit (.gethostbyname host)
  let timeout : timeval := { tv_sec := 2, tv_usec := 0 }
  match env.gethostbyname with
  | none => { ret := false, out_delta := out_delta, world := w }
  | some server =>
    let addr_length := min server.h_length 4
    let s_addr := memcpy (List.replicate 4 0) server.h_addr addr_length
    let ntp_packet := ntp_request
    let w := w.emit (.setsockopt_rcvtimeo timeout)
    let w := w.emit (.connect s_addr 123)
    let w := w.emit (.send ntp_packet)
    let w := w.emit (.recv 48)
    let received : Int × List Nat :=
      match env.recv with
      | none => (-1, ntp_packet)
      | some data =>
        (((data.take 48).length : Nat), memcpy ntp_packet data (data.take 48).length)
    let ntp_packet := received.2
    if received.1 ≥ 0 then
      let ntp_time := ntp_time_of tw ntp_packet
      let cur_time := w.clock
      let w := { w.emit (.settimeofday ntp_time) with clock := ntp_time }
      let ntp_time_delta := ntp_time_delta_of cur_time ntp_time
      { ret := true
        out_delta := out_delta.map fun _ => ntp_time_delta
        world := w }
    else
      { ret := false, out_delta := out_delta, world := w }

/-- The event bases the handler distinguishes; any other base is `other`. -/
inductive esp_event_base_t where
  | WIFI_EVENT
  | IP_EVENT
  | other (n : Nat)
deriving DecidableEq, Repr

/-- The event identifiers the handler distinguishes; any other identifier is `other`. -/
inductive event_id_t where
  | WIFI_EVENT_STA_START
  | WIFI_EVENT_STA_STOP
  | WIFI_EVENT_STA_DISCONNECTED
  | WIFI_EVENT_AP_START
  | WIFI_EVENT_AP_STOP
  | IP_EVENT_STA_GOT_IP
  | other (n : Int)
deriving DecidableEq, Repr

/-- Assignment to `netstate.state`. -/
def World.set_state (w : World) (s : rg_wifi_state_t) : World :=
  { w with netstate := { w.netstate with state := s } }

/-- `network_event_handler(arg, event_base, event_id, event_data)`. -/
def network_event_handler (tw : time_t_width) (env : Env) (event_base : esp_event_base_t)
    (event_id : event_id_t) (event_data : ip_event_got_ip_t) (w : World) : World :=
  if event_base = .WIFI_EVENT then
    if event_id = .WIFI_EVENT_STA_STOP ∨ event_id = .WIFI_EVENT_AP_STOP then
      w.set_state .RG_WIFI_DISCONNECTED
    else if event_id = .WIFI_EVENT_STA_START then
      let w := w.set_state .RG_WIFI_CONNECTING
      w.emit .esp_wifi_connect
    else if event_id = .WIFI_EVENT_STA_DISCONNECTED then
      let w := w.set_state .RG_WIFI_CONNECTING
      let w := w.emit (.rg_system_event .RG_EVENT_NETWORK_DISCONNECTED)
      w.emit .esp_wifi_connect
    else if event_id = .WIFI_EVENT_AP_START then
      let ip_info := env.tcpip_adapter_get_ip_info
      let w :=
        if ip_info.1 = ESP_OK then
          { w with netstate :=
              { w.netstate with
                local_addr := snprintf w.netstate.local_addr 16 (IPSTR_IP2STR ip_info.2) } }
        else w
      let w := w.set_state .RG_WIFI_CONNECTED
      w.emit (.rg_system_event .RG_EVENT_NETWORK_CONNECTED)
    else w
  else if event_base = .IP_EVENT then
    if event_id = .IP_EVENT_STA_GOT_IP then
      let w :=
        { w with netstate :=
            { w.netstate with
              local_addr := snprintf w.netstate.local_addr 16 (IPSTR_IP2STR event_data.ip) } }
      let wifidata := env.esp_wifi_sta_get_ap_info
      let w :=
        if wifidata.1 = ESP_OK then
          { w with netstate :=
              { w.netstate with channel := wifidata.2.primary, rssi := wifidata.2.rssi } }
        else w
      let w := w.set_state .RG_WIFI_CONNECTED
      let synced := rg_network_sync_time tw env "pool.ntp.org" none w
      let w := if synced.ret then synced.world.emit .rg_system_save_time else synced.world
      w.emit (.rg_system_event .RG_EVENT_NETWORK_CONNECTED)
    else w
  else w

/-! ## Vocabulary of the specification -/

/-- Big-endian 32-bit word number `i` of a datagram. -/
def be_word (bytes : List Nat) (i : Nat) : Nat :=
  bytes.getD (4 * i) 0 * 16777216 + bytes.getD (4 * i + 1) 0 * 65536 +
    bytes.getD (4 * i + 2) 0 * 256 + bytes.getD (4 * i + 3) 0

/-- Dotted-decimal text of an IPv4 address given by its four octets. -/
def dotted_decimal (a b c d : Nat) : String :=
  toString a ++ "." ++ toString b ++ "." ++ toString c ++ "." ++ toString d

/-- Bytes of a text. -/
def text_bytes (s : String) : List Nat :=
  s.toList.map Char.toNat

/-- A clock value in milliseconds, as the code derives it: microseconds divided by 1000. -/
def timeval_millis (tv : timeval) : Int :=
  Int.tdiv (tv.tv_sec * 1000000 + tv.tv_usec) 1000

/-- The integer is representable in a signed field of `bits` bits. -/
def fits_signed (bits : Nat) (x : Int) : Prop :=
  -(2 ^ (bits - 1)) ≤ x ∧ x < 2 ^ (bits - 1)

instance (bits : Nat) (x : Int) : Decidable (fits_signed bits x) := by
  unfold fits_signed; infer_instance

/-- The effects a call added to the world: what follows the earlier effects. -/
def new_effects (before after : World) : List Effect :=
  after.effects.drop before.effects.length

end RgNetwork

namespace RgNetwork

/-! ## Sample inputs -/

/-- An environment in which every driver call succeeds, the host resolves, and no datagram
arrives. -/
def sample_env : Env :=
  { esp_wifi_set_mode := 0
    esp_wifi_set_config := 0
    esp_wifi_start := 0
    tcpip_adapter_get_ip_info := (0, ⟨0x0104A8C0⟩)
    esp_wifi_sta_get_ap_info := (0, ⟨6, -40⟩)
    gethostbyname := some ⟨4, [162, 159, 200, 1]⟩
    recv := none }

/-- The module after initialisation with nothing configured, the clock at `clock`. -/
def sample_world (clock : timeval) : World :=
  { World.boot clock with initialized := true }

/-- The bytes of the network name `home`, NUL-terminated. -/
def sample_ssid : List Nat := [104, 111, 109, 101, 0]

/-- The bytes of the password `secret12`, NUL-terminated. -/
def sample_password : List Nat := [115, 101, 99, 114, 101, 116, 49, 50, 0]

/-- The module after initialisation and `rg_network_wifi_set_config("home", "secret12", 6,
ap_mode)`. -/
def sample_configured (ap_mode : Bool) : World :=
  (rg_network_wifi_set_config (some sample_ssid) (some sample_password) 6 ap_mode
    (sample_world ⟨0, 0⟩)).2

/-- The environment of `sample_env`, except that `recv` hands over the datagram `data`. -/
def sample_env_reply (data : List Nat) : Env :=
  { sample_env with recv := some data }

/-- A 48-byte datagram whose words 10 and 11 hold `seconds` and `fraction` in big-endian
order, every other word being zero. -/
def sample_response (seconds fraction : Nat) : List Nat :=
  List.replicate 40 0 ++ (u32_store seconds).reverse ++ (u32_store fraction).reverse

/-- The three driver commands of a start in the order mode-select, configure, start, for a
given stored configuration: access-point mode and interface with at most one client when
`ap_mode` is set, station mode and interface otherwise. -/
def start_commands (c : rg_wifi_config_t) : List Effect :=
  if c.ap_mode then
    [.esp_wifi_set_mode .WIFI_MODE_AP,
     .esp_wifi_set_config .WIFI_IF_AP
       (.ap (c.ssid.take 32) (c.password.take 64) (c.channel % 256) 1),
     .esp_wifi_start]
  else
    [.esp_wifi_set_mode .WIFI_MODE_STA,
     .esp_wifi_set_config .WIFI_IF_STA
       (.sta (c.ssid.take 32) (c.password.take 64) (c.channel % 256)),
     .esp_wifi_start]

/-- How many of the three start commands get issued: everything up to and including the
first one that fails. -/
def start_commands_issued (env : Env) : Nat :=
  if env.esp_wifi_set_mode ≠ ESP_OK then 1
  else if env.esp_wifi_set_config ≠ ESP_OK then 2
  else 3

/-- The environment of `sample_env`, except that the address query
`tcpip_adapter_get_ip_info` fails with `ESP_ERR_INVALID_ARG` (0x102). -/
def sample_env_no_ip : Env :=
  { sample_env with tcpip_adapter_get_ip_info := (0x102, ⟨0⟩) }

/-- The address 10.0.0.5 as an `ip4_addr_t`. -/
def sample_ip : ip4_addr_t := ⟨0x0500000A⟩

/-- Dotted-decimal text of an `ip4_addr_t`, as bytes. -/
def ip_text (ip : ip4_addr_t) : List Nat :=
  text_bytes (dotted_decimal (ip4_addr1_16 ip) (ip4_addr2_16 ip) (ip4_addr3_16 ip)
    (ip4_addr4_16 ip))

/-! ## Auxiliary lemmas -/

theorem new_effects_append (w w' : World) (l : List Effect)
    (h : w'.effects = w.effects ++ l) : new_effects w w' = l := by
  simp [new_effects, h]

theorem wrap_signed_32 (x : Int) :
    wrap_signed 32 x = (x + 2147483648) % 4294967296 - 2147483648 := by
  unfold wrap_signed; norm_num

theorem wrap_signed_64 (x : Int) :
    wrap_signed 64 x =
      (x + 9223372036854775808) % 18446744073709551616 - 9223372036854775808 := by
  unfold wrap_signed; norm_num

theorem wrap_unsigned_32 (x : Int) : wrap_unsigned 32 x = x % 4294967296 := by
  unfold wrap_unsigned; norm_num

theorem fits_signed_32 (x : Int) :
    fits_signed 32 x ↔ -2147483648 ≤ x ∧ x < 2147483648 := by
  unfold fits_signed; norm_num

theorem fits_signed_64 (x : Int) :
    fits_signed 64 x ↔ -9223372036854775808 ≤ x ∧ x < 9223372036854775808 := by
  unfold fits_signed; norm_num

theorem shiftRight_32 (x : Int) : x >>> (32 : Nat) = x / 4294967296 := by
  rw [Int.shiftRight_eq_div_pow]; norm_num

theorem getD_lt_256 (mem : List Nat) (h : ∀ b ∈ mem, b < 256) (k : Nat) :
    mem.getD k 0 < 256 := by
  rw [List.getD_eq_getElem?_getD]
  cases hk : mem[k]? with
  | none => simp
  | some b => simpa using h b (List.getElem?_mem hk)

theorem ntohl_u32_load (mem : List Nat) (h : ∀ b ∈ mem, b < 256) (i : Nat) :
    ntohl (u32_load mem i) = be_word mem i := by
  have h0 := getD_lt_256 mem h (4 * i)
  have h1 := getD_lt_256 mem h (4 * i + 1)
  have h2 := getD_lt_256 mem h (4 * i + 2)
  have h3 := getD_lt_256 mem h (4 * i + 3)
  unfold ntohl u32_load be_word
  omega

theorem be_word_lt (mem : List Nat) (h : ∀ b ∈ mem, b < 256) (i : Nat) :
    be_word mem i < 4294967296 := by
  have h0 := getD_lt_256 mem h (4 * i)
  have h1 := getD_lt_256 mem h (4 * i + 1)
  have h2 := getD_lt_256 mem h (4 * i + 2)
  have h3 := getD_lt_256 mem h (4 * i + 3)
  unfold be_word
  omega

theorem ntohl_lt (x : Nat) : ntohl x < 4294967296 := by
  unfold ntohl; omega

theorem usec_of_fraction (f : Nat) (hf : f < 4294967296) :
    wrap_signed 32 ((i64_mul (f : Int) 1000000) >>> (32 : Nat)) =
        ((f : Int) * 1000000) >>> (32 : Nat) ∧
      0 ≤ ((f : Int) * 1000000) >>> (32 : Nat) ∧
      ((f : Int) * 1000000) >>> (32 : Nat) < 1000000 := by
  have h1 : i64_mul (f : Int) 1000000 = (f : Int) * 1000000 := by
    unfold i64_mul
    rw [wrap_signed_64]
    omega
  rw [h1, shiftRight_32, wrap_signed_32]
  have h2 : 0 ≤ (f : Int) * 1000000 / 4294967296 := by omega
  have h3 : (f : Int) * 1000000 / 4294967296 < 1000000 := by omega
  refine ⟨?_, h2, h3⟩
  omega

theorem tdiv_1000_nonneg (a : Int) (h : 0 ≤ a) : a.tdiv 1000 = a / 1000 :=
  Int.tdiv_eq_ediv h (by norm_num)

theorem tdiv_1000_neg (a : Int) (h : a < 0) : a.tdiv 1000 = -((-a) / 1000) := by
  have h1 : (-a).tdiv 1000 = (-a) / 1000 := Int.tdiv_eq_ediv (by omega) (by norm_num)
  rw [← h1, Int.neg_tdiv, neg_neg]

theorem tdiv_1000_bounds (a : Int) (h : fits_signed 64 a) : fits_signed 64 (a.tdiv 1000) := by
  rw [fits_signed_64] at h ⊢
  rcases Int.lt_or_le a 0 with hneg | hpos
  · rw [tdiv_1000_neg a hneg]; omega
  · rw [tdiv_1000_nonneg a hpos]; omega

theorem wrap_signed_64_of_fits (x : Int) (h : fits_signed 64 x) : wrap_signed 64 x = x := by
  rw [fits_signed_64] at h
  rw [wrap_signed_64]; omega

theorem wrap_signed_32_of_fits (x : Int) (h : fits_signed 32 x) : wrap_signed 32 x = x := by
  rw [fits_signed_32] at h
  rw [wrap_signed_32]; omega

theorem fits_64_of_fits_32 (x : Int) (h : fits_signed 32 x) : fits_signed 64 x := by
  rw [fits_signed_32] at h
  rw [fits_signed_64]; omega

/-- Without overflow of the 64-bit intermediate values, the code's millisecond count of a
`struct timeval` is the exact one. -/
theorem millis_i64_exact (tv : timeval) (h1 : fits_signed 64 (tv.tv_sec * 1000000))
    (h2 : fits_signed 64 (tv.tv_sec * 1000000 + tv.tv_usec)) :
    millis_i64 tv = timeval_millis tv ∧ fits_signed 64 (timeval_millis tv) := by
  have hsec : fits_signed 64 tv.tv_sec := by
    rw [fits_signed_64] at h1 ⊢; omega
  have hdiv := tdiv_1000_bounds _ h2
  unfold millis_i64 timeval_millis i64_div i64_add i64_mul
  rw [wrap_signed_64_of_fits _ hsec, wrap_signed_64_of_fits _ h1, wrap_signed_64_of_fits _ h2,
    wrap_signed_64_of_fits _ hdiv]
  exact ⟨rfl, hdiv⟩

/-- The time derived from any packet buffer is far from the limits of 64-bit arithmetic. -/
theorem ntp_time_of_range (tw : time_t_width) (pkt : List Nat) :
    fits_signed 64 ((ntp_time_of tw pkt).tv_sec * 1000000) ∧
      fits_signed 64 ((ntp_time_of tw pkt).tv_sec * 1000000 + (ntp_time_of tw pkt).tv_usec) := by
  have h10 := ntohl_lt (u32_load pkt 10)
  have husec := usec_of_fraction _ (ntohl_lt (u32_load pkt 11))
  have hs : -4294967296 ≤ (ntp_time_of tw pkt).tv_sec ∧
      (ntp_time_of tw pkt).tv_sec < 4294967296 := by
    simp only [ntp_time_of]
    rw [wrap_unsigned_32]
    cases tw
    · simp only [to_time_t, time_t_width.bits]
      rw [wrap_signed_32]; omega
    · simp only [to_time_t, time_t_width.bits]
      rw [wrap_signed_64]; omega
  have hu : 0 ≤ (ntp_time_of tw pkt).tv_usec ∧ (ntp_time_of tw pkt).tv_usec < 1000000 := by
    simp only [ntp_time_of]
    rw [husec.1]
    exact husec.2
  rw [fits_signed_64, fits_signed_64]
  omega

theorem snprintf_pos (buf : List Nat) (size : Nat) (text : List Nat) (h : size ≠ 0) :
    snprintf buf size text =
      text.take (size - 1) ++ 0 :: buf.drop (min (size - 1) text.length + 1) := by
  simp [snprintf, h]

theorem c_str_terminated (text rest : List Nat) (h : ∀ b ∈ text, b ≠ 0) :
    c_str (text ++ 0 :: rest) = text := by
  induction text with
  | nil => simp [c_str]
  | cons x xs ih =>
    have hx : x ≠ 0 := h x (List.mem_cons_self _ _)
    have hxs : ∀ b ∈ xs, b ≠ 0 := fun b hb => h b (List.mem_cons_of_mem _ hb)
    simpa [c_str, hx] using ih hxs

theorem c_str_no_nul (mem : List Nat) : ∀ b ∈ c_str mem, b ≠ 0 := by
  intro b hb
  have := List.mem_takeWhile_imp hb
  simpa using this

/-- A text without NUL that leaves room for the terminator is read back unchanged. -/
theorem c_str_snprintf (buf : List Nat) (size : Nat) (text : List Nat)
    (hlen : text.length < size) (hnz : ∀ b ∈ text, b ≠ 0) :
    c_str (snprintf buf size text) = text := by
  rw [snprintf_pos buf size text (by omega), List.take_of_length_le (by omega)]
  exact c_str_terminated _ _ hnz

set_option maxRecDepth 100000 in
theorem fmt_d_octet : ∀ n, n < 256 → (fmt_d n).length ≤ 3 ∧ ∀ b ∈ fmt_d n, b ≠ 0 := by
  decide

theorem toString_data (n : Nat) : (toString n).data = Nat.toDigits 10 n := rfl

theorem ip_text_eq (ip : ip4_addr_t) : ip_text ip = IPSTR_IP2STR ip := by
  simp [ip_text, IPSTR_IP2STR, text_bytes, dotted_decimal, fmt_d, String.toList,
    toString_data]

/-- The formatted address has at most 15 characters, none of them NUL, and is not empty. -/
theorem IPSTR_IP2STR_props (ip : ip4_addr_t) :
    (IPSTR_IP2STR ip).length < 16 ∧ (∀ b ∈ IPSTR_IP2STR ip, b ≠ 0) ∧ IPSTR_IP2STR ip ≠ [] := by
  have h1 := fmt_d_octet (ip4_addr1_16 ip) (Nat.mod_lt _ (by norm_num))
  have h2 := fmt_d_octet (ip4_addr2_16 ip) (Nat.mod_lt _ (by norm_num))
  have h3 := fmt_d_octet (ip4_addr3_16 ip) (Nat.mod_lt _ (by norm_num))
  have h4 := fmt_d_octet (ip4_addr4_16 ip) (Nat.mod_lt _ (by norm_num))
  refine ⟨?_, ?_, ?_⟩
  · simp only [IPSTR_IP2STR, List.length_append, List.length_singleton]
    omega
  · intro b hb
    simp only [IPSTR_IP2STR, List.mem_append, List.mem_singleton] at hb
    rcases hb with ((((((hb | hb) | hb) | hb) | hb) | hb) | hb)
    · exact h1.2 b hb
    · omega
    · exact h2.2 b hb
    · omega
    · exact h3.2 b hb
    · omega
    · exact h4.2 b hb
  · simp [IPSTR_IP2STR]

theorem recv_full_datagram (data : List Nat) (hlen : data.length = 48) :
    memcpy ntp_request data (data.take 48).length = data := by
  have hdrop : ntp_request.drop 48 = [] := by decide
  have htake : data.take 48 = data := List.take_of_length_le (by omega)
  unfold memcpy
  rw [htake, hlen, htake, hdrop, List.append_nil]

/-- What a call leaves behind once the host is resolved and `recv` has handed over a
datagram, whatever its length. -/
theorem sync_time_received (tw : time_t_width) (env : Env) (host : String)
    (out_delta : Option Int) (w : World) (server : hostent) (data : List Nat)
    (hres : env.gethostbyname = some server) (hrecv : env.recv = some data) :
    (rg_network_sync_time tw env host out_delta w).ret = true ∧
      (rg_network_sync_time tw env host out_delta w).world.clock =
        ntp_time_of tw (memcpy ntp_request data (data.take 48).length) ∧
      (rg_network_sync_time tw env host out_delta w).out_delta =
        out_delta.map (fun _ => ntp_time_delta_of w.clock
          (ntp_time_of tw (memcpy ntp_request data (data.take 48).length))) ∧
      (rg_network_sync_time tw env host out_delta w).world.effects =
        w.effects ++ [.socket, .gethostbyname host, .setsockopt_rcvtimeo ⟨2, 0⟩,
          .connect (memcpy (List.replicate 4 0) server.h_addr (min server.h_length 4)) 123,
          .send ntp_request, .recv 48,
          .settimeofday (ntp_time_of tw (memcpy ntp_request data (data.take 48).length))] ∧
      (rg_network_sync_time tw env host out_delta w).world.netstate = w.netstate := by
  have hge : ((↑(data.take 48).length : Int) ≥ 0) := Int.ofNat_nonneg _
  refine ⟨?_, ?_, ?_, ?_, ?_⟩ <;>
    simp only [rg_network_sync_time, hres, hrecv, World.emit, if_pos hge,
      List.append_assoc, List.cons_append, List.nil_append]

theorem sync_time_netstate (tw : time_t_width) (env : Env) (host : String)
    (out_delta : Option Int) (w : World) :
    (rg_network_sync_time tw env host out_delta w).world.netstate = w.netstate := by
  cases hres : env.gethostbyname with
  | none => simp [rg_network_sync_time, hres, World.emit]
  | some server =>
    cases hrecv : env.recv with
    | none => simp [rg_network_sync_time, hres, hrecv, World.emit]
    | some data => exact (sync_time_received tw env host out_delta w server data hres hrecv).2.2.2.2

/-- The `netstate` left by the handler for `IP_EVENT_STA_GOT_IP`. -/
theorem got_ip_netstate (tw : time_t_width) (env : Env) (event_data : ip_event_got_ip_t)
    (w : World) :
    (network_event_handler tw env .IP_EVENT .IP_EVENT_STA_GOT_IP event_data w).netstate =
      { ssid := w.netstate.ssid
        local_addr := snprintf w.netstate.local_addr 16 (IPSTR_IP2STR event_data.ip)
        channel :=
          if env.esp_wifi_sta_get_ap_info.1 = ESP_OK then
            (env.esp_wifi_sta_get_ap_info.2.primary : Int)
          else w.netstate.channel
        rssi :=
          if env.esp_wifi_sta_get_ap_info.1 = ESP_OK then env.esp_wifi_sta_get_ap_info.2.rssi
          else w.netstate.rssi
        state := .RG_WIFI_CONNECTED } := by
  simp only [network_event_handler, World.emit, World.set_state]
  split_ifs <;> simp_all [sync_time_netstate]

/-! ## The connection state machine -/

/-- C1: with the module initialised and an empty `config.ssid` (first byte NUL),
`rg_network_wifi_start` returns `false` and leaves the whole world as it was: no driver
command is issued and `netstate.state` keeps its value. -/
theorem wifi_start_empty_ssid (env : Env) (w : World) (hinit : w.initialized = true)
    (hssid : w.config.ssid.getD 0 0 = 0) :
    ∃ w', rg_network_wifi_start env w = some (false, w') ∧
      new_effects w w' = [] ∧ w'.effects = w.effects ∧
      w'.netstate.state = w.netstate.state ∧ w' = w := by
  refine ⟨w, ?_, ?_, rfl, rfl, rfl⟩
  · unfold rg_network_wifi_start RG_ASSERT
    rw [hinit, if_pos rfl, Option.bind, if_pos hssid]
  · simp [new_effects]

theorem wifi_start_empty_ssid_witness :
    (sample_world ⟨0, 0⟩).initialized = true ∧
      (sample_world ⟨0, 0⟩).config.ssid.getD 0 0 = 0 ∧
      (sample_world ⟨0, 0⟩).netstate.state = .RG_WIFI_DISCONNECTED ∧
      ∃ w', rg_network_wifi_start sample_env (sample_world ⟨0, 0⟩) = some (false, w') ∧
        new_effects (sample_world ⟨0, 0⟩) w' = [] ∧ w'.effects = (sample_world ⟨0, 0⟩).effects ∧
        w'.netstate.state = (sample_world ⟨0, 0⟩).netstate.state ∧ w' = sample_world ⟨0, 0⟩ :=
  ⟨rfl, rfl, rfl, wifi_start_empty_ssid sample_env (sample_world ⟨0, 0⟩) rfl rfl⟩

/-- C2: whatever the state before, handling `WIFI_EVENT_STA_DISCONNECTED` leaves the state
`RG_WIFI_CONNECTING` and makes exactly two calls: one `rg_system_event` with
`RG_EVENT_NETWORK_DISCONNECTED`, then one `esp_wifi_connect`; no
`RG_EVENT_NETWORK_CONNECTED` is raised. -/
theorem sta_disconnected_reconnects (tw : time_t_width) (env : Env)
    (event_data : ip_event_got_ip_t) (w : World) :
    (network_event_handler tw env .WIFI_EVENT .WIFI_EVENT_STA_DISCONNECTED event_data
        w).netstate.state = .RG_WIFI_CONNECTING ∧
      (network_event_handler tw env .WIFI_EVENT .WIFI_EVENT_STA_DISCONNECTED event_data
        w).effects =
        w.effects ++ [.rg_system_event .RG_EVENT_NETWORK_DISCONNECTED, .esp_wifi_connect] ∧
      (new_effects w (network_event_handler tw env .WIFI_EVENT .WIFI_EVENT_STA_DISCONNECTED
        event_data w)).count (.rg_system_event .RG_EVENT_NETWORK_DISCONNECTED) = 1 ∧
      (new_effects w (network_event_handler tw env .WIFI_EVENT .WIFI_EVENT_STA_DISCONNECTED
        event_data w)).count .esp_wifi_connect = 1 ∧
      (new_effects w (network_event_handler tw env .WIFI_EVENT .WIFI_EVENT_STA_DISCONNECTED
        event_data w)).count (.rg_system_event .RG_EVENT_NETWORK_CONNECTED) = 0 := by
  have heff : (network_event_handler tw env .WIFI_EVENT .WIFI_EVENT_STA_DISCONNECTED event_data
        w).effects =
        w.effects ++ [.rg_system_event .RG_EVENT_NETWORK_DISCONNECTED, .esp_wifi_connect] := by
    simp [network_event_handler, World.emit, World.set_state]
  refine ⟨?_, heff, ?_, ?_, ?_⟩
  · simp [network_event_handler, World.emit, World.set_state]
  · rw [new_effects_append _ _ _ heff]; decide
  · rw [new_effects_append _ _ _ heff]; decide
  · rw [new_effects_append _ _ _ heff]; decide

/-- C8: with the module initialised and a non-empty `config.ssid`, `rg_network_wifi_start`
issues the commands of `start_commands` (mode-select, configure, start; access-point mode,
interface and `max_connection = 1` when `ap_mode` is set, station mode and interface
otherwise) in that order and stops after the first one that fails; it returns `true`
exactly when all three succeed; `netstate` and `config` are left as they were. -/
theorem wifi_start_sequence (env : Env) (w : World) (hinit : w.initialized = true)
    (hssid : w.config.ssid.getD 0 0 ≠ 0) :
    ∃ ret w', rg_network_wifi_start env w = some (ret, w') ∧
      w'.effects = w.effects ++ (start_commands w.config).take (start_commands_issued env) ∧
      new_effects w w' = (start_commands w.config).take (start_commands_issued env) ∧
      (ret = true ↔ env.esp_wifi_set_mode = ESP_OK ∧ env.esp_wifi_set_config = ESP_OK ∧
        env.esp_wifi_start = ESP_OK) ∧
      w'.netstate.state = w.netstate.state ∧ w'.netstate = w.netstate ∧
      w'.config = w.config := by
  have key : ∃ ret w', rg_network_wifi_start env w = some (ret, w') ∧
      w'.effects = w.effects ++ (start_commands w.config).take (start_commands_issued env) ∧
      (ret = true ↔ env.esp_wifi_set_mode = ESP_OK ∧ env.esp_wifi_set_config = ESP_OK ∧
        env.esp_wifi_start = ESP_OK) ∧
      w'.netstate = w.netstate ∧ w'.config = w.config := by
    unfold rg_network_wifi_start RG_ASSERT
    rw [hinit, if_pos rfl, Option.bind, if_neg hssid]
    have h32 : (List.replicate 32 (0 : Nat)).drop 32 = [] := by decide
    have h64 : (List.replicate 64 (0 : Nat)).drop 64 = [] := by decide
    by_cases hap : w.config.ap_mode = true <;>
    by_cases h1 : env.esp_wifi_set_mode = ESP_OK <;>
    by_cases h2 : env.esp_wifi_set_config = ESP_OK <;>
    by_cases h3 : env.esp_wifi_start = ESP_OK <;>
    simp [hap, h1, h2, h3, TRY, World.emit, start_commands, start_commands_issued, memcpy,
      wrap_unsigned, h32, h64]
  obtain ⟨ret, w', hrun, heff, hret, hnet, hcfg⟩ := key
  exact ⟨ret, w', hrun, heff, new_effects_append _ _ _ heff, hret, by rw [hnet], hnet, hcfg⟩

theorem wifi_start_sequence_witness :
    (sample_configured true).initialized = true ∧
      (sample_configured true).config.ssid.getD 0 0 ≠ 0 ∧
      ∃ ret w', rg_network_wifi_start sample_env (sample_configured true) = some (ret, w') ∧
        w'.effects = (sample_configured true).effects ++
          (start_commands (sample_configured true).config).take
            (start_commands_issued sample_env) ∧
        new_effects (sample_configured true) w' =
          (start_commands (sample_configured true).config).take
            (start_commands_issued sample_env) ∧
        (ret = true ↔ sample_env.esp_wifi_set_mode = ESP_OK ∧
          sample_env.esp_wifi_set_config = ESP_OK ∧ sample_env.esp_wifi_start = ESP_OK) ∧
        w'.netstate.state = (sample_configured true).netstate.state ∧
        w'.netstate = (sample_configured true).netstate ∧
        w'.config = (sample_configured true).config :=
  ⟨by decide, by decide,
    wifi_start_sequence sample_env (sample_configured true) (by decide) (by decide)⟩

/-! ## The time synchronisation client -/

/-- C6: when `gethostbyname` returns null, or `recv` fails, `rg_network_sync_time` returns
`false`, leaves the clock and the cell behind `out_delta` as they were and never calls
`settimeofday`; when `gethostbyname` returns null nothing is sent either. -/
theorem sync_time_failure (tw : time_t_width) (env : Env) (host : String)
    (out_delta : Option Int) (w : World)
    (hfail : env.gethostbyname = none ∨ env.recv = none) :
    (rg_network_sync_time tw env host out_delta w).ret = false ∧
      (rg_network_sync_time tw env host out_delta w).world.clock = w.clock ∧
      (rg_network_sync_time tw env host out_delta w).out_delta = out_delta ∧
      (rg_network_sync_time tw env host out_delta w).world.effects =
        w.effects ++ new_effects w (rg_network_sync_time tw env host out_delta w).world ∧
      (∀ tv, Effect.settimeofday tv ∉
        new_effects w (rg_network_sync_time tw env host out_delta w).world) ∧
      (env.gethostbyname = none → ∀ bytes, Effect.send bytes ∉
        new_effects w (rg_network_sync_time tw env host out_delta w).world) := by
  cases hres : env.gethostbyname with
  | none =>
    have heff : (rg_network_sync_time tw env host out_delta w).world.effects =
        w.effects ++ [.socket, .gethostbyname host] := by
      simp [rg_network_sync_time, hres, World.emit]
    rw [new_effects_append _ _ _ heff]
    refine ⟨?_, ?_, ?_, heff, ?_, ?_⟩ <;> simp [rg_network_sync_time, hres, World.emit]
  | some server =>
    have hrecv : env.recv = none := by
      rcases hfail with h | h
      · rw [hres] at h; cases h
      · exact h
    have heff : (rg_network_sync_time tw env host out_delta w).world.effects =
        w.effects ++ [.socket, .gethostbyname host, .setsockopt_rcvtimeo ⟨2, 0⟩,
          .connect (memcpy (List.replicate 4 0) server.h_addr (min server.h_length 4)) 123,
          .send ntp_request, .recv 48] := by
      simp [rg_network_sync_time, hres, hrecv, World.emit]
    rw [new_effects_append _ _ _ heff]
    refine ⟨?_, ?_, ?_, heff, ?_, ?_⟩ <;> simp [rg_network_sync_time, hres, hrecv, World.emit]

theorem sync_time_failure_witness :
    (sample_env.gethostbyname = none ∨ sample_env.recv = none) ∧
      (rg_network_sync_time .bits64 sample_env "pool.ntp.org" (some 7)
        (sample_world ⟨1000, 0⟩)).ret = false ∧
      (rg_network_sync_time .bits64 sample_env "pool.ntp.org" (some 7)
        (sample_world ⟨1000, 0⟩)).world.clock = ⟨1000, 0⟩ ∧
      (rg_network_sync_time .bits64 sample_env "pool.ntp.org" (some 7)
        (sample_world ⟨1000, 0⟩)).out_delta = some 7 :=
  have h := sync_time_failure .bits64 sample_env "pool.ntp.org" (some 7)
    (sample_world ⟨1000, 0⟩) (Or.inr rfl)
  ⟨Or.inr rfl, h.1, h.2.1, h.2.2.1⟩

/-- C10 (the code at the failing input): an empty datagram makes `recv` return 0, which
passes the test `>= 0`; `rg_network_sync_time` then returns `true` and sets the clock from
the zero words still in the request buffer, to 2085978496 seconds (7 February 2036). -/
theorem sync_time_accepts_empty_datagram :
    ([] : List Nat).length < 48 ∧
      (rg_network_sync_time .bits32 (sample_env_reply []) "pool.ntp.org" none
        (sample_world ⟨1700000000, 0⟩)).ret = true ∧
      (rg_network_sync_time .bits32 (sample_env_reply []) "pool.ntp.org" none
        (sample_world ⟨1700000000, 0⟩)).world.clock = ⟨2085978496, 0⟩ ∧
      (rg_network_sync_time .bits64 (sample_env_reply []) "pool.ntp.org" none
        (sample_world ⟨1700000000, 0⟩)).ret = true ∧
      (rg_network_sync_time .bits64 (sample_env_reply []) "pool.ntp.org" none
        (sample_world ⟨1700000000, 0⟩)).world.clock = ⟨2085978496, 0⟩ := by
  decide

/-- C7 as stated fails: for the 48-byte response made of zeros (word 10 is 0) the clock is
set to 2085978496 seconds, not to `0 - 2208988800`; the subtraction is carried out on
32-bit unsigned operands and wraps around.  This holds for either width of `time_t`. -/
theorem sync_time_seconds_wrap :
    (sample_response 0 0).length = 48 ∧ be_word (sample_response 0 0) 10 = 0 ∧
      (rg_network_sync_time .bits32 (sample_env_reply (sample_response 0 0)) "pool.ntp.org"
        none (sample_world ⟨0, 0⟩)).world.clock.tv_sec = 2085978496 ∧
      (rg_network_sync_time .bits64 (sample_env_reply (sample_response 0 0)) "pool.ntp.org"
        none (sample_world ⟨0, 0⟩)).world.clock.tv_sec = 2085978496 ∧
      (rg_network_sync_time .bits32 (sample_env_reply (sample_response 0 0)) "pool.ntp.org"
        none (sample_world ⟨0, 0⟩)).world.clock.tv_sec ≠
        (be_word (sample_response 0 0) 10 : Int) - 2208988800 ∧
      (rg_network_sync_time .bits64 (sample_env_reply (sample_response 0 0)) "pool.ntp.org"
        none (sample_world ⟨0, 0⟩)).world.clock.tv_sec ≠
        (be_word (sample_response 0 0) 10 : Int) - 2208988800 := by
  decide

/-- C7 (amended): for every 48-byte response, once the host is resolved, the call returns
`true` and calls `settimeofday` with a time whose microseconds are
`(word 11 * 1000000) >> 32` and whose seconds are the 32-bit unsigned difference
`(word 10 - 2208988800) mod 2^32` converted to `time_t`; when word 10 is at least
2208988800 (a transmit time from 1970 on) the seconds are exactly
`word 10 - 2208988800`.  Words are read in big-endian order. -/
theorem sync_time_sets_clock (tw : time_t_width) (env : Env) (host : String)
    (out_delta : Option Int) (w : World) (server : hostent) (resp : List Nat)
    (hres : env.gethostbyname = some server) (hrecv : env.recv = some resp)
    (hlen : resp.length = 48) (hbytes : ∀ b ∈ resp, b < 256) :
    (rg_network_sync_time tw env host out_delta w).ret = true ∧
      Effect.settimeofday (rg_network_sync_time tw env host out_delta w).world.clock ∈
        new_effects w (rg_network_sync_time tw env host out_delta w).world ∧
      (rg_network_sync_time tw env host out_delta w).world.clock.tv_usec =
        ((be_word resp 11 : Int) * 1000000) >>> (32 : Nat) ∧
      (rg_network_sync_time tw env host out_delta w).world.clock.tv_sec =
        to_time_t tw (((be_word resp 10 : Int) - 2208988800) % 4294967296) ∧
      (2208988800 ≤ be_word resp 10 →
        (rg_network_sync_time tw env host out_delta w).world.clock.tv_sec =
          (be_word resp 10 : Int) - 2208988800) := by
  obtain ⟨hret, hclock, -, heff, -⟩ :=
    sync_time_received tw env host out_delta w server resp hres hrecv
  rw [recv_full_datagram resp hlen] at hclock heff
  have h10 := be_word_lt resp hbytes 10
  have h11 := be_word_lt resp hbytes 11
  have husec : (ntp_time_of tw resp).tv_usec =
      ((be_word resp 11 : Int) * 1000000) >>> (32 : Nat) := by
    simp only [ntp_time_of]
    rw [ntohl_u32_load resp hbytes 11]
    exact (usec_of_fraction _ h11).1
  have hsec : (ntp_time_of tw resp).tv_sec =
      to_time_t tw (((be_word resp 10 : Int) - 2208988800) % 4294967296) := by
    simp only [ntp_time_of]
    rw [ntohl_u32_load resp hbytes 10, wrap_unsigned_32]
  refine ⟨hret, ?_, ?_, ?_, ?_⟩
  · rw [new_effects_append _ _ _ heff, hclock]
    simp
  · rw [hclock, husec]
  · rw [hclock, hsec]
  · intro hge
    rw [hclock, hsec]
    cases tw
    · simp only [to_time_t, time_t_width.bits]
      rw [wrap_signed_32]
      omega
    · simp only [to_time_t, time_t_width.bits]
      rw [wrap_signed_64]
      omega

theorem sync_time_sets_clock_witness :
    (sample_env_reply (sample_response 3908988800 2147483648)).gethostbyname =
        some ⟨4, [162, 159, 200, 1]⟩ ∧
      (sample_response 3908988800 2147483648).length = 48 ∧
      be_word (sample_response 3908988800 2147483648) 10 = 3908988800 ∧
      be_word (sample_response 3908988800 2147483648) 11 = 2147483648 ∧
      (rg_network_sync_time .bits64 (sample_env_reply (sample_response 3908988800 2147483648))
        "pool.ntp.org" none (sample_world ⟨0, 0⟩)).world.clock.tv_usec =
        ((be_word (sample_response 3908988800 2147483648) 11 : Int) * 1000000) >>> (32 : Nat) ∧
      (2208988800 ≤ be_word (sample_response 3908988800 2147483648) 10 →
        (rg_network_sync_time .bits64
          (sample_env_reply (sample_response 3908988800 2147483648))
          "pool.ntp.org" none (sample_world ⟨0, 0⟩)).world.clock.tv_sec =
          (be_word (sample_response 3908988800 2147483648) 10 : Int) - 2208988800) :=
  have h := sync_time_sets_clock .bits64
    (sample_env_reply (sample_response 3908988800 2147483648)) "pool.ntp.org" none
    (sample_world ⟨0, 0⟩) ⟨4, [162, 159, 200, 1]⟩ (sample_response 3908988800 2147483648)
    rfl rfl (by decide) (by decide)
  ⟨rfl, by decide, by decide, by decide, h.2.2.1, h.2.2.2.2⟩

set_option maxRecDepth 8000 in
/-- C5 as stated fails: with the local clock at the epoch and a response carrying the
transmit time 1700000000 s, the exact difference is 1700000000000 ms, which does not fit
the `int` it is stored in; the value written to `out_delta` is -807049216, negative
although the local clock was behind. -/
theorem sync_time_delta_truncated :
    (rg_network_sync_time .bits64 (sample_env_reply (sample_response 3908988800 0))
        "pool.ntp.org" (some 0) (sample_world ⟨0, 0⟩)).out_delta = some (-807049216) ∧
      timeval_millis (rg_network_sync_time .bits64
        (sample_env_reply (sample_response 3908988800 0))
        "pool.ntp.org" (some 0) (sample_world ⟨0, 0⟩)).world.clock -
        timeval_millis (sample_world ⟨0, 0⟩).clock = 1700000000000 ∧
      (rg_network_sync_time .bits64 (sample_env_reply (sample_response 3908988800 0))
        "pool.ntp.org" (some 0) (sample_world ⟨0, 0⟩)).out_delta ≠
        some (timeval_millis (rg_network_sync_time .bits64
          (sample_env_reply (sample_response 3908988800 0))
          "pool.ntp.org" (some 0) (sample_world ⟨0, 0⟩)).world.clock -
          timeval_millis (sample_world ⟨0, 0⟩).clock) := by
  decide

/-- C5 (amended): for every received datagram and every local clock value whose
microsecond count fits 64 bits, whenever `correctedMillis - previousMillis` is
representable in the 32-bit `int` behind `out_delta`, the value written there is exactly
that difference, `correctedMillis` being the millisecond count of the time the clock was
set to and `previousMillis` that of the clock before the call; it is positive when the
local clock was behind and negative when it was ahead. -/
theorem sync_time_delta (tw : time_t_width) (env : Env) (host : String) (old : Int)
    (w : World) (server : hostent) (data : List Nat)
    (hres : env.gethostbyname = some server) (hrecv : env.recv = some data)
    (hclock1 : fits_signed 64 (w.clock.tv_sec * 1000000))
    (hclock2 : fits_signed 64 (w.clock.tv_sec * 1000000 + w.clock.tv_usec))
    (hfit : fits_signed 32
      (timeval_millis (rg_network_sync_time tw env host (some old) w).world.clock -
        timeval_millis w.clock)) :
    ∃ delta, (rg_network_sync_time tw env host (some old) w).out_delta = some delta ∧
      delta = timeval_millis (rg_network_sync_time tw env host (some old) w).world.clock -
        timeval_millis w.clock ∧
      (timeval_millis w.clock <
        timeval_millis (rg_network_sync_time tw env host (some old) w).world.clock →
          0 < delta) ∧
      (timeval_millis (rg_network_sync_time tw env host (some old) w).world.clock <
        timeval_millis w.clock → delta < 0) := by
  obtain ⟨-, hclock, hdelta, -, -⟩ :=
    sync_time_received tw env host (some old) w server data hres hrecv
  rw [hclock] at hfit ⊢
  obtain ⟨hr1, hr2⟩ := ntp_time_of_range tw (memcpy ntp_request data (data.take 48).length)
  obtain ⟨hnow, -⟩ := millis_i64_exact _ hr1 hr2
  obtain ⟨hprev, -⟩ := millis_i64_exact _ hclock1 hclock2
  have hval : ntp_time_delta_of w.clock
      (ntp_time_of tw (memcpy ntp_request data (data.take 48).length)) =
      timeval_millis (ntp_time_of tw (memcpy ntp_request data (data.take 48).length)) -
        timeval_millis w.clock := by
    simp only [ntp_time_delta_of, i64_sub]
    rw [hnow, hprev, wrap_signed_64_of_fits _ (fits_64_of_fits_32 _ hfit),
      wrap_signed_32_of_fits _ hfit]
  refine ⟨ntp_time_delta_of w.clock
    (ntp_time_of tw (memcpy ntp_request data (data.take 48).length)), hdelta, hval, ?_, ?_⟩
  · intro h
    rw [hval]
    omega
  · intro h
    rw [hval]
    omega

theorem sync_time_delta_witness :
    fits_signed 64 ((sample_world ⟨1700000000, 0⟩).clock.tv_sec * 1000000) ∧
      timeval_millis (rg_network_sync_time .bits32
        (sample_env_reply (sample_response 3908988805 0)) "pool.ntp.org" (some 0)
        (sample_world ⟨1700000000, 0⟩)).world.clock -
        timeval_millis (sample_world ⟨1700000000, 0⟩).clock = 5000 ∧
      ∃ delta, (rg_network_sync_time .bits32
          (sample_env_reply (sample_response 3908988805 0)) "pool.ntp.org" (some 0)
          (sample_world ⟨1700000000, 0⟩)).out_delta = some delta ∧
        delta = timeval_millis (rg_network_sync_time .bits32
          (sample_env_reply (sample_response 3908988805 0)) "pool.ntp.org" (some 0)
          (sample_world ⟨1700000000, 0⟩)).world.clock -
          timeval_millis (sample_world ⟨1700000000, 0⟩).clock ∧
        (timeval_millis (sample_world ⟨1700000000, 0⟩).clock <
          timeval_millis (rg_network_sync_time .bits32
            (sample_env_reply (sample_response 3908988805 0)) "pool.ntp.org" (some 0)
            (sample_world ⟨1700000000, 0⟩)).world.clock → 0 < delta) ∧
        (timeval_millis (rg_network_sync_time .bits32
            (sample_env_reply (sample_response 3908988805 0)) "pool.ntp.org" (some 0)
            (sample_world ⟨1700000000, 0⟩)).world.clock <
          timeval_millis (sample_world ⟨1700000000, 0⟩).clock → delta < 0) :=
  ⟨by decide, by decide,
    sync_time_delta .bits32 (sample_env_reply (sample_response 3908988805 0)) "pool.ntp.org" 0
      (sample_world ⟨1700000000, 0⟩) ⟨4, [162, 159, 200, 1]⟩ (sample_response 3908988805 0)
      rfl rfl (by decide) (by decide) (by decide)⟩

/-! ## Events that lead to `RG_WIFI_CONNECTED`, and the stored configuration -/

/-- C3: whatever the state before (in particular `RG_WIFI_DISCONNECTED`), handling
`WIFI_EVENT_STA_START` leaves the state `RG_WIFI_CONNECTING`, and handling
`IP_EVENT_STA_GOT_IP` with address `ip` next, the driver reporting channel `ch` and signal
strength `rssi`, leaves it `RG_WIFI_CONNECTED`; `rg_network_get_info` then returns a
`local_addr` holding the dotted-decimal text of `ip`, `rssi` equal to `rssi` and `channel`
equal to `ch`. -/
theorem sta_connect_sequence (tw : time_t_width) (env1 env2 : Env)
    (event_data1 : ip_event_got_ip_t) (ip : ip4_addr_t) (rssi : Int) (ch : Nat) (w : World)
    (hstate : w.netstate.state = .RG_WIFI_DISCONNECTED)
    (hinfo : env2.esp_wifi_sta_get_ap_info = (ESP_OK, ⟨ch, rssi⟩)) :
    w.netstate.state = .RG_WIFI_DISCONNECTED ∧
      (network_event_handler tw env1 .WIFI_EVENT .WIFI_EVENT_STA_START event_data1
        w).netstate.state = .RG_WIFI_CONNECTING ∧
      (network_event_handler tw env2 .IP_EVENT .IP_EVENT_STA_GOT_IP ⟨ip⟩
        (network_event_handler tw env1 .WIFI_EVENT .WIFI_EVENT_STA_START event_data1
          w)).netstate.state = .RG_WIFI_CONNECTED ∧
      c_str (rg_network_get_info
        (network_event_handler tw env2 .IP_EVENT .IP_EVENT_STA_GOT_IP ⟨ip⟩
          (network_event_handler tw env1 .WIFI_EVENT .WIFI_EVENT_STA_START event_data1
            w))).local_addr = ip_text ip ∧
      (rg_network_get_info
        (network_event_handler tw env2 .IP_EVENT .IP_EVENT_STA_GOT_IP ⟨ip⟩
          (network_event_handler tw env1 .WIFI_EVENT .WIFI_EVENT_STA_START event_data1
            w))).rssi = rssi ∧
      (rg_network_get_info
        (network_event_handler tw env2 .IP_EVENT .IP_EVENT_STA_GOT_IP ⟨ip⟩
          (network_event_handler tw env1 .WIFI_EVENT .WIFI_EVENT_STA_START event_data1
            w))).channel = (ch : Int) := by
  obtain ⟨hlen, hnz, -⟩ := IPSTR_IP2STR_props ip
  have hok : env2.esp_wifi_sta_get_ap_info.1 = ESP_OK := by rw [hinfo]
  refine ⟨hstate, ?_, ?_, ?_, ?_, ?_⟩
  · simp [network_event_handler, World.emit, World.set_state]
  · rw [got_ip_netstate]
  · unfold rg_network_get_info
    rw [got_ip_netstate, ip_text_eq]
    exact c_str_snprintf _ 16 _ hlen hnz
  · unfold rg_network_get_info
    rw [got_ip_netstate]
    simp only [if_pos hok]
    rw [hinfo]
  · unfold rg_network_get_info
    rw [got_ip_netstate]
    simp only [if_pos hok]
    rw [hinfo]

theorem sta_connect_sequence_witness :
    ip_text sample_ip = text_bytes "10.0.0.5" ∧
      (sample_world ⟨0, 0⟩).netstate.state = .RG_WIFI_DISCONNECTED ∧
      (network_event_handler .bits64 sample_env .WIFI_EVENT .WIFI_EVENT_STA_START ⟨⟨0⟩⟩
        (sample_world ⟨0, 0⟩)).netstate.state = .RG_WIFI_CONNECTING ∧
      (network_event_handler .bits64 sample_env .IP_EVENT .IP_EVENT_STA_GOT_IP ⟨sample_ip⟩
        (network_event_handler .bits64 sample_env .WIFI_EVENT .WIFI_EVENT_STA_START ⟨⟨0⟩⟩
          (sample_world ⟨0, 0⟩))).netstate.state = .RG_WIFI_CONNECTED ∧
      c_str (rg_network_get_info
        (network_event_handler .bits64 sample_env .IP_EVENT .IP_EVENT_STA_GOT_IP ⟨sample_ip⟩
          (network_event_handler .bits64 sample_env .WIFI_EVENT .WIFI_EVENT_STA_START ⟨⟨0⟩⟩
            (sample_world ⟨0, 0⟩)))).local_addr = ip_text sample_ip ∧
      (rg_network_get_info
        (network_event_handler .bits64 sample_env .IP_EVENT .IP_EVENT_STA_GOT_IP ⟨sample_ip⟩
          (network_event_handler .bits64 sample_env .WIFI_EVENT .WIFI_EVENT_STA_START ⟨⟨0⟩⟩
            (sample_world ⟨0, 0⟩)))).rssi = -40 ∧
      (rg_network_get_info
        (network_event_handler .bits64 sample_env .IP_EVENT .IP_EVENT_STA_GOT_IP ⟨sample_ip⟩
          (network_event_handler .bits64 sample_env .WIFI_EVENT .WIFI_EVENT_STA_START ⟨⟨0⟩⟩
            (sample_world ⟨0, 0⟩)))).channel = ((6 : Nat) : Int) :=
  ⟨by decide,
    sta_connect_sequence .bits64 sample_env sample_env ⟨⟨0⟩⟩ sample_ip (-40) 6
      (sample_world ⟨0, 0⟩) rfl rfl⟩

/-- C4 as stated fails: after `rg_network_wifi_set_config("home", "secret12", 6, true)`,
when the address query `tcpip_adapter_get_ip_info` does not return `ESP_OK`, handling
`WIFI_EVENT_AP_START` leaves the state `RG_WIFI_CONNECTED` and raises
`RG_EVENT_NETWORK_CONNECTED`, but `local_addr` stays empty. -/
theorem ap_start_without_address :
    (sample_configured true).config.ap_mode = true ∧
      (network_event_handler .bits64 sample_env_no_ip .WIFI_EVENT .WIFI_EVENT_AP_START ⟨⟨0⟩⟩
        (sample_configured true)).netstate.state = .RG_WIFI_CONNECTED ∧
      c_str (rg_network_get_info
        (network_event_handler .bits64 sample_env_no_ip .WIFI_EVENT .WIFI_EVENT_AP_START ⟨⟨0⟩⟩
          (sample_configured true))).local_addr = [] := by
  decide

/-- C4 (amended): after `rg_network_wifi_set_config` with `ap_mode = true`, handling one
`WIFI_EVENT_AP_START` (no `IP_EVENT_STA_GOT_IP` being involved) leaves the state
`RG_WIFI_CONNECTED` and makes exactly one call, `rg_system_event` with
`RG_EVENT_NETWORK_CONNECTED`; when the address query `tcpip_adapter_get_ip_info` returns
`ESP_OK`, `local_addr` holds the dotted-decimal text of the address it reported, which is
not empty; otherwise `local_addr` keeps its bytes. -/
theorem ap_start_connected (tw : time_t_width) (env : Env) (event_data : ip_event_got_ip_t)
    (ssid password : Option (List Nat)) (channel : Int) (w : World) :
    (rg_network_wifi_set_config ssid password channel true w).2.config.ap_mode = true ∧
      (network_event_handler tw env .WIFI_EVENT .WIFI_EVENT_AP_START event_data
        (rg_network_wifi_set_config ssid password channel true w).2).netstate.state =
        .RG_WIFI_CONNECTED ∧
      (network_event_handler tw env .WIFI_EVENT .WIFI_EVENT_AP_START event_data
        (rg_network_wifi_set_config ssid password channel true w).2).effects =
        w.effects ++ [.rg_system_event .RG_EVENT_NETWORK_CONNECTED] ∧
      (env.tcpip_adapter_get_ip_info.1 = ESP_OK →
        c_str (rg_network_get_info
          (network_event_handler tw env .WIFI_EVENT .WIFI_EVENT_AP_START event_data
            (rg_network_wifi_set_config ssid password channel true w).2)).local_addr =
          ip_text env.tcpip_adapter_get_ip_info.2 ∧
        c_str (rg_network_get_info
          (network_event_handler tw env .WIFI_EVENT .WIFI_EVENT_AP_START event_data
            (rg_network_wifi_set_config ssid password channel true w).2)).local_addr ≠ []) ∧
      (env.tcpip_adapter_get_ip_info.1 ≠ ESP_OK →
        (rg_network_get_info
          (network_event_handler tw env .WIFI_EVENT .WIFI_EVENT_AP_START event_data
            (rg_network_wifi_set_config ssid password channel true w).2)).local_addr =
          w.netstate.local_addr) := by
  obtain ⟨hlen, hnz, hne⟩ := IPSTR_IP2STR_props env.tcpip_adapter_get_ip_info.2
  have hstr := c_str_snprintf w.netstate.local_addr 16 _ hlen hnz
  refine ⟨rfl, ?_, ?_, ?_, ?_⟩
  · simp [network_event_handler, World.emit, World.set_state]
  · by_cases hok : env.tcpip_adapter_get_ip_info.1 = ESP_OK <;>
      simp [network_event_handler, World.emit, World.set_state, hok,
        rg_network_wifi_set_config]
  · intro hok
    have haddr : (rg_network_get_info
        (network_event_handler tw env .WIFI_EVENT .WIFI_EVENT_AP_START event_data
          (rg_network_wifi_set_config ssid password channel true w).2)).local_addr =
        snprintf w.netstate.local_addr 16 (IPSTR_IP2STR env.tcpip_adapter_get_ip_info.2) := by
      simp [network_event_handler, World.emit, World.set_state, hok,
        rg_network_wifi_set_config, rg_network_get_info]
    rw [haddr, hstr, ip_text_eq]
    exact ⟨rfl, hne⟩
  · intro hok
    simp [network_event_handler, World.emit, World.set_state, hok,
      rg_network_wifi_set_config, rg_network_get_info]

theorem ap_start_connected_witness :
    sample_env.tcpip_adapter_get_ip_info.1 = ESP_OK ∧
      ip_text sample_env.tcpip_adapter_get_ip_info.2 = text_bytes "192.168.4.1" ∧
      c_str (rg_network_get_info
        (network_event_handler .bits64 sample_env .WIFI_EVENT .WIFI_EVENT_AP_START ⟨⟨0⟩⟩
          (rg_network_wifi_set_config (some sample_ssid) (some sample_password) 6 true
            (sample_world ⟨0, 0⟩)).2)).local_addr =
        ip_text sample_env.tcpip_adapter_get_ip_info.2 ∧
      c_str (rg_network_get_info
        (network_event_handler .bits64 sample_env .WIFI_EVENT .WIFI_EVENT_AP_START ⟨⟨0⟩⟩
          (rg_network_wifi_set_config (some sample_ssid) (some sample_password) 6 true
            (sample_world ⟨0, 0⟩)).2)).local_addr ≠ [] :=
  ⟨rfl, by decide,
    (ap_start_connected .bits64 sample_env ⟨⟨0⟩⟩ (some sample_ssid) (some sample_password) 6
      (sample_world ⟨0, 0⟩)).2.2.2.1 rfl⟩

/-- C9: for every `ssid` and `password` (bytes at the pointer, or a null pointer, which
counts as the empty string), every `channel` and `ap_mode`, with the three character
arrays at their declared sizes, `rg_network_wifi_set_config` returns `true`; `config.ssid`
becomes the first `min(len, 31)` bytes of the string, a NUL, and the old bytes after it, and
is still 32 bytes long; `config.password` likewise with 63 and 64; `channel` and `ap_mode`
are stored as given; `netstate.ssid` equals the stored `config.ssid`; `netstate.state`,
`local_addr`, `channel` and `rssi` are unchanged. -/
theorem set_config_stores (ssid password : Option (List Nat)) (channel : Int)
    (ap_mode : Bool) (w : World) (hssid : w.config.ssid.length = 32)
    (hpassword : w.config.password.length = 64) (hnet : w.netstate.ssid.length = 32) :
    (rg_network_wifi_set_config ssid password channel ap_mode w).1 = true ∧
      (rg_network_wifi_set_config ssid password channel ap_mode w).2.config.ssid =
        (c_str (ssid.getD [])).take (min (c_str (ssid.getD [])).length 31) ++ [0] ++
          w.config.ssid.drop (min (c_str (ssid.getD [])).length 31 + 1) ∧
      (rg_network_wifi_set_config ssid password channel ap_mode w).2.config.ssid.length = 32 ∧
      c_str (rg_network_wifi_set_config ssid password channel ap_mode w).2.config.ssid =
        (c_str (ssid.getD [])).take (min (c_str (ssid.getD [])).length 31) ∧
      (rg_network_wifi_set_config ssid password channel ap_mode w).2.config.password =
        (c_str (password.getD [])).take (min (c_str (password.getD [])).length 63) ++ [0] ++
          w.config.password.drop (min (c_str (password.getD [])).length 63 + 1) ∧
      (rg_network_wifi_set_config ssid password channel ap_mode w).2.config.password.length =
        64 ∧
      c_str (rg_network_wifi_set_config ssid password channel ap_mode w).2.config.password =
        (c_str (password.getD [])).take (min (c_str (password.getD [])).length 63) ∧
      (rg_network_wifi_set_config ssid password channel ap_mode w).2.config.channel =
        channel ∧
      (rg_network_wifi_set_config ssid password channel ap_mode w).2.config.ap_mode =
        ap_mode ∧
      (rg_network_get_info
        (rg_network_wifi_set_config ssid password channel ap_mode w).2).ssid =
        (rg_network_wifi_set_config ssid password channel ap_mode w).2.config.ssid ∧
      (rg_network_get_info
        (rg_network_wifi_set_config ssid password channel ap_mode w).2).state =
        w.netstate.state ∧
      (rg_network_get_info
        (rg_network_wifi_set_config ssid password channel ap_mode w).2).local_addr =
        w.netstate.local_addr ∧
      (rg_network_get_info
        (rg_network_wifi_set_config ssid password channel ap_mode w).2).channel =
        w.netstate.channel ∧
      (rg_network_get_info
        (rg_network_wifi_set_config ssid password channel ap_mode w).2).rssi =
        w.netstate.rssi := by
  have hs : (rg_network_wifi_set_config ssid password channel ap_mode w).2.config.ssid =
      (c_str (ssid.getD [])).take (min (c_str (ssid.getD [])).length 31) ++ [0] ++
        w.config.ssid.drop (min (c_str (ssid.getD [])).length 31 + 1) := by
    simp only [rg_network_wifi_set_config]
    rw [snprintf_pos _ 32 _ (by norm_num)]
    simp [List.take_eq_take, Nat.min_comm]
  have hp : (rg_network_wifi_set_config ssid password channel ap_mode w).2.config.password =
      (c_str (password.getD [])).take (min (c_str (password.getD [])).length 63) ++ [0] ++
        w.config.password.drop (min (c_str (password.getD [])).length 63 + 1) := by
    simp only [rg_network_wifi_set_config]
    rw [snprintf_pos _ 64 _ (by norm_num)]
    simp [List.take_eq_take, Nat.min_comm]
  have hsl : (rg_network_wifi_set_config ssid password channel ap_mode w).2.config.ssid.length
      = 32 := by
    rw [hs]
    simp only [List.length_append, List.length_take, List.length_drop, List.length_singleton,
      hssid]
    omega
  have hpl : (rg_network_wifi_set_config ssid password channel ap_mode
      w).2.config.password.length = 64 := by
    rw [hp]
    simp only [List.length_append, List.length_take, List.length_drop, List.length_singleton,
      hpassword]
    omega
  have hmirror : (rg_network_get_info
      (rg_network_wifi_set_config ssid password channel ap_mode w).2).ssid =
      (rg_network_wifi_set_config ssid password channel ap_mode w).2.config.ssid := by
    have hcopy : ∀ dst src : List Nat, src.length = 32 → dst.length = 32 →
        memcpy dst src 32 = src := by
      intro dst src h1 h2
      unfold memcpy
      rw [List.take_of_length_le (by omega), List.drop_of_length_le (by omega),
        List.append_nil]
    exact hcopy _ _ hsl hnet
  refine ⟨rfl, hs, hsl, ?_, hp, hpl, ?_, rfl, rfl, hmirror, rfl, rfl, rfl, rfl⟩
  · rw [hs, List.append_assoc]
    exact c_str_terminated _ _
      (fun b hb => c_str_no_nul _ b (List.mem_of_mem_take hb))
  · rw [hp, List.append_assoc]
    exact c_str_terminated _ _
      (fun b hb => c_str_no_nul _ b (List.mem_of_mem_take hb))

theorem set_config_stores_witness :
    (sample_world ⟨0, 0⟩).config.ssid.length = 32 ∧
      (sample_world ⟨0, 0⟩).config.password.length = 64 ∧
      (sample_world ⟨0, 0⟩).netstate.ssid.length = 32 ∧
      c_str (List.replicate 40 65 ++ [0]) = List.replicate 40 65 ∧
      (rg_network_wifi_set_config (some (List.replicate 40 65 ++ [0])) none 6 true
        (sample_world ⟨0, 0⟩)).2.config.ssid = List.replicate 31 65 ++ [0] ∧
      (rg_network_wifi_set_config (some (List.replicate 40 65 ++ [0])) none 6 true
        (sample_world ⟨0, 0⟩)).2.config.ssid.length = 32 ∧
      (rg_network_wifi_set_config (some (List.replicate 40 65 ++ [0])) none 6 true
        (sample_world ⟨0, 0⟩)).2.config.password.length = 64 ∧
      (rg_network_get_info
        (rg_network_wifi_set_config (some (List.replicate 40 65 ++ [0])) none 6 true
          (sample_world ⟨0, 0⟩)).2).ssid =
        (rg_network_wifi_set_config (some (List.replicate 40 65 ++ [0])) none 6 true
          (sample_world ⟨0, 0⟩)).2.config.ssid :=
  have h := set_config_stores (some (List.replicate 40 65 ++ [0])) none 6 true
    (sample_world ⟨0, 0⟩) (by decide) (by decide) (by decide)
  ⟨by decide, by decide, by decide, by decide, by decide, h.2.2.1, h.2.2.2.2.2.1,
    h.2.2.2.2.2.2.2.2.2.1⟩

end RgNetwork
